import Mathlib

/-!
Verification of the binary decoding core of `python-mysql-replication`
(files `pymysqlreplication/packet.py` and `pymysqlreplication/protocol.py`).

The Python code is shallowly embedded: byte strings become `List Nat`
(each element one byte value), Python `int` becomes `Int`/`Nat`, a cursor
object becomes an explicit state record, a method that can raise becomes a
state function returning `Except Err`.  Each Python `raise` site is given
its own `Err` constructor so theorems can distinguish failure modes.
-/

/-- Failure modes of the embedded code.  Every constructor corresponds to a
concrete Python exception site:
* `structError`   — `struct.unpack`/`struct.pack` called with a buffer whose
  length does not match the format string;
* `valueError`    — `raise ValueError('Json type %d is not handled')` and the
  analogous opaque-subtype raise in `protocol.py`;
* `malformedJson` — `raise ValueError('Json length is larger than packet
  length')` in `read_binary_json_object` / `read_binary_json_array`
  (the spec calls this `MalformedJsonError`);
* `indexError`    — indexing a Python list/bytes out of range
  (e.g. `key_offset_lengths[0]` on an empty list, `n[4]` on short bytes);
* `typeError`     — `None ^ mask` when `read_int_be_by_size` fell through
  all branches and returned `None`;
* `attributeError`— calling a method the object does not have
  (`self.unread` on a `WrapperJson`);
* `truncated`     — the underlying pymysql packet raises on a read past the
  end of its data (the spec calls this `TruncatedDataError`);
* `fuelOut`       — artefact of the embedding: recursion fuel exhausted.
  All theorems supply enough fuel that this never fires. -/
inductive Err where
  | structError
  | valueError
  | malformedJson
  | indexError
  | typeError
  | attributeError
  | truncated
  | fuelOut
deriving DecidableEq

/-- State-plus-exception monad used for all embedded methods: a computation
reads and updates a cursor state `σ` and either yields a value or an error.
The state is kept on the error path as well, because Python objects keep the
mutations performed before an exception was raised. -/
def M (σ : Type) (α : Type) : Type := σ → Except Err α × σ

instance instMonadM {σ : Type} : Monad (M σ) where
  pure a := fun s => (Except.ok a, s)
  bind x f := fun s =>
    match x s with
    | (Except.ok a, s1) => f a s1
    | (Except.error e, s1) => (Except.error e, s1)

/-- Raise an exception, keeping the state. -/
def throwM {σ α : Type} (e : Err) : M σ α := fun s => (Except.error e, s)

/-- Lift a pure `Except` computation into the monad. -/
def liftE {σ α : Type} (x : Except Err α) : M σ α := fun s => (x, s)

/-- Read the current state. -/
def getS {σ : Type} : M σ σ := fun s => (Except.ok s, s)

/-- Update the state. -/
def modifyS {σ : Type} (f : σ → σ) : M σ Unit := fun s => (Except.ok (), f s)

/-- Little-endian value of a byte list (first byte least significant),
the semantics of `struct.unpack` with `<` formats. -/
def leNat : List Nat → Nat
  | [] => 0
  | b :: bs => b + 256 * leNat bs

/-- Big-endian value of a byte list (first byte most significant),
the semantics of `struct.unpack` with `>` formats. -/
def beNat (bs : List Nat) : Nat := bs.foldl (fun acc b => acc * 256 + b) 0

/-- Two's-complement reinterpretation of a `w`-bit unsigned value as signed,
the difference between `struct` formats `B/H/I/Q` and `b/h/i/q`. -/
def toSigned (w : Nat) (v : Nat) : Int :=
  if v < 2 ^ (w - 1) then (v : Int) else (v : Int) - 2 ^ w

/-- `struct.unpack` of one big-endian fixed-width integer field: the buffer
must have exactly the format's width, otherwise `struct.error`. -/
def structUnpackBE (width : Nat) (signed : Bool) (bs : List Nat) : Except Err Int :=
  if bs.length = width then
    Except.ok (if signed then toSigned (8 * width) (beNat bs) else (beNat bs : Int))
  else Except.error Err.structError

/-- `struct.pack('<B', v)`: one byte; `struct.error` unless `0 ≤ v < 256`. -/
def structPackB (v : Nat) : Except Err (List Nat) :=
  if v < 256 then Except.ok [v] else Except.error Err.structError

/-- Python `int(a / b)` on integer operands: float division truncated toward
zero, i.e. truncating integer division. -/
def pyIntDiv (a b : Int) : Int := Int.tdiv a b

/-- Python list indexing `l[i]` with an `int` index: negative indices count
from the end; out of range raises `IndexError`. -/
def pyIndex (l : List Nat) (i : Int) : Except Err Nat :=
  if 0 ≤ i then
    if i.toNat < l.length then Except.ok (l.getD i.toNat 0) else Except.error Err.indexError
  else
    let j : Int := (l.length : Int) + i
    if 0 ≤ j ∧ j.toNat < l.length then Except.ok (l.getD j.toNat 0)
    else Except.error Err.indexError

/-- Python `x ^ y` on unbounded ints (two's-complement bitwise xor). -/
def intXor : Int → Int → Int
  | Int.ofNat a, Int.ofNat b => Int.ofNat (a ^^^ b)
  | Int.ofNat a, Int.negSucc b => Int.negSucc (a ^^^ b)
  | Int.negSucc a, Int.ofNat b => Int.negSucc (a ^^^ b)
  | Int.negSucc a, Int.negSucc b => Int.ofNat (a ^^^ b)

/-- `"0" * k` padding helper for `%0Nd` formatting. -/
def padZeros (w : Nat) (s : String) : String :=
  String.mk (List.replicate (w - s.length) '0') ++ s

/-- Python `'%0*d' % (width, v)`: decimal rendering zero-padded to `width`
total characters, the sign included in the width. -/
def pyFormatZero (width : Nat) (v : Int) : String :=
  if v < 0 then "-" ++ padZeros (width - 1) (toString v.natAbs)
  else padZeros width (toString v)

/-- pymysql's `byte2int` applied to a 1-byte read result: fails unless the
buffer holds exactly one byte. -/
def byte2int (bs : List Nat) : Except Err Nat :=
  match bs with
  | [b] => Except.ok b
  | _ => Except.error Err.structError

/-- The state of `protocol.WrapperPayload` (and its subclass `WrapperJson`):
an in-memory byte payload and a read position `point`. -/
structure JState where
  payload : List Nat
  point : Nat
deriving DecidableEq

/-- `WrapperPayload.read`: `self.point += size; return
self.payload[self.point-size:self.point]`.  Python slicing clamps at the end
of the payload, so the result is silently shorter than `size` when fewer
bytes remain; no exception is raised. -/
def WrapperPayload.read (size : Nat) : M JState (List Nat) := fun s =>
  (Except.ok ((s.payload.drop s.point).take size), { s with point := s.point + size })

/-- `WrapperPayload.advance`: `self.point += size`. -/
def WrapperPayload.advance (size : Nat) : M JState Unit := fun s =>
  (Except.ok (), { s with point := s.point + size })

/-- The state of `packet.BinLogPacketWrapper`: the `read_bytes` counter, the
`data_buffer` override buffer, and the remaining bytes of the wrapped
pymysql packet. -/
structure BState where
  read_bytes : Int
  data_buffer : List Nat
  packet : List Nat
deriving DecidableEq

/-- The wrapped pymysql packet's `read`: returns exactly `n` bytes or raises
(pymysql raises when the requested range exceeds the packet data; the spec
calls this `TruncatedDataError`).  External collaborator, modelled as an
exact-or-error read over the remaining byte list. -/
def packetRead (n : Nat) (pkt : List Nat) : Except Err (List Nat) × List Nat :=
  if n ≤ pkt.length then (Except.ok (pkt.take n), pkt.drop n)
  else (Except.error Err.truncated, pkt)

/-- The wrapped pymysql packet's `advance`, same bound behaviour as its
`read`. -/
def packetAdvance (n : Nat) (pkt : List Nat) : Except Err Unit × List Nat :=
  if n ≤ pkt.length then (Except.ok (), pkt.drop n)
  else (Except.error Err.truncated, pkt)

/-- `BinLogPacketWrapper.read`: bumps `read_bytes` by `size`, serves the
override buffer first, and falls through to the wrapped packet for the
remainder. -/
def BinLogPacketWrapper.read (size : Nat) : M BState (List Nat) := fun st =>
  let st := { st with read_bytes := st.read_bytes + size }
  if st.data_buffer.length > 0 then
    let data := st.data_buffer.take size
    let st1 := { st with data_buffer := st.data_buffer.drop size }
    if data.length = size then (Except.ok data, st1)
    else
      match packetRead (size - data.length) st1.packet with
      | (Except.ok more, pkt1) => (Except.ok (data ++ more), { st1 with packet := pkt1 })
      | (Except.error e, pkt1) => (Except.error e, { st1 with packet := pkt1 })
  else
    match packetRead size st.packet with
    | (Except.ok data, pkt1) => (Except.ok data, { st with packet := pkt1 })
    | (Except.error e, pkt1) => (Except.error e, { st with packet := pkt1 })

/-- `BinLogPacketWrapper.unread`: `self.read_bytes -= len(data);
self.data_buffer += data` — note it appends `data` after any bytes already
in the buffer. -/
def BinLogPacketWrapper.unread (data : List Nat) (st : BState) : BState :=
  { st with read_bytes := st.read_bytes - data.length,
            data_buffer := st.data_buffer ++ data }

/-- Monadic wrapper around `BinLogPacketWrapper.unread`. -/
def unreadM (data : List Nat) : M BState Unit := fun st =>
  (Except.ok (), BinLogPacketWrapper.unread data st)

/-- `BinLogPacketWrapper.advance`: bumps `read_bytes`, drops from the
override buffer, and advances the wrapped packet by the shortfall only. -/
def BinLogPacketWrapper.advance (size : Nat) : M BState Unit := fun st =>
  let st := { st with read_bytes := st.read_bytes + size }
  let buffer_len := st.data_buffer.length
  if buffer_len > 0 then
    let st1 := { st with data_buffer := st.data_buffer.drop size }
    if size > buffer_len then
      match packetAdvance (size - buffer_len) st1.packet with
      | (r, pkt1) => (r, { st1 with packet := pkt1 })
    else (Except.ok (), st1)
  else
    match packetAdvance size st.packet with
    | (r, pkt1) => (r, { st with packet := pkt1 })

/-- The abstract `read` that `StructMysql` leaves to its subclasses: the class
body only stubs it (`return ''`), and each wrapper overrides it.  The generic
decode routines below are written against this interface, exactly as the
Python methods are written against `self.read`. -/
class Cursor (σ : Type) where
  read : Nat → M σ (List Nat)

instance instCursorJState : Cursor JState where
  read := WrapperPayload.read

instance instCursorBState : Cursor BState where
  read := BinLogPacketWrapper.read

section StructMysqlReaders

variable {σ : Type} [Cursor σ]

/-- `StructMysql.read_uint8`: `struct.unpack('<B', self.read(1))[0]`. -/
def read_uint8 : M σ Nat := do
  let bs ← Cursor.read 1
  match bs with
  | [b] => pure b
  | _ => throwM Err.structError

/-- `StructMysql.read_uint16`: `struct.unpack('<H', self.read(2))[0]`. -/
def read_uint16 : M σ Nat := do
  let bs ← Cursor.read 2
  match bs with
  | [b0, b1] => pure (b0 + 256 * b1)
  | _ => throwM Err.structError

/-- `StructMysql.read_int16`: `struct.unpack('<h', self.read(2))[0]`. -/
def read_int16 : M σ Int := do
  let bs ← Cursor.read 2
  match bs with
  | [b0, b1] => pure (toSigned 16 (b0 + 256 * b1))
  | _ => throwM Err.structError

/-- `StructMysql.read_uint32`: `struct.unpack('<I', self.read(4))[0]`. -/
def read_uint32 : M σ Nat := do
  let bs ← Cursor.read 4
  match bs with
  | [b0, b1, b2, b3] => pure (b0 + 256 * (b1 + 256 * (b2 + 256 * b3)))
  | _ => throwM Err.structError

/-- `StructMysql.read_int32`: `struct.unpack('<i', self.read(4))[0]`. -/
def read_int32 : M σ Int := do
  let bs ← Cursor.read 4
  match bs with
  | [b0, b1, b2, b3] => pure (toSigned 32 (b0 + 256 * (b1 + 256 * (b2 + 256 * b3))))
  | _ => throwM Err.structError

/-- `StructMysql.read_uint64`: `struct.unpack('<Q', self.read(8))[0]`. -/
def read_uint64 : M σ Nat := do
  let bs ← Cursor.read 8
  if bs.length = 8 then pure (leNat bs) else throwM Err.structError

/-- `StructMysql.read_int64`: `struct.unpack('<q', self.read(8))[0]`. -/
def read_int64 : M σ Int := do
  let bs ← Cursor.read 8
  if bs.length = 8 then pure (toSigned 64 (leNat bs)) else throwM Err.structError

/-- `StructMysql.read_int24_be`: three separate bytes recombined with
shift/or, then sign-corrected at bit 23. -/
def read_int24_be : M σ Int := do
  let bs ← Cursor.read 3
  match bs with
  | [a, b, c] =>
      let res : Nat := (a <<< 16) ||| (b <<< 8) ||| c
      if res ≥ 0x800000 then pure ((res : Int) - 0x1000000) else pure (res : Int)
  | _ => throwM Err.structError

/-- `StructMysql.read_int40_be`: `struct.unpack('>IB', self.read(5))` then
`b + (a << 8)` — an unsigned 40-bit big-endian value, no sign handling. -/
def read_int40_be : M σ Int := do
  let bs ← Cursor.read 5
  match bs with
  | [a0, a1, a2, a3, b] =>
      let a : Nat := beNat [a0, a1, a2, a3]
      pure ((b : Int) + ((a <<< 8 : Nat) : Int))
  | _ => throwM Err.structError

/-- `StructMysql.read_int_be_by_size`: big-endian reads dispatched on the
byte width.  Width 8 applies the four-byte format `'>l'` to the eight bytes
just read; widths other than 1,2,3,4,5,8 fall off the `elif` chain and
return Python `None` (`none` here) without consuming anything. -/
def read_int_be_by_size (size : Nat) : M σ (Option Int) :=
  if size = 1 then do
    let bs ← Cursor.read 1
    let v ← liftE (structUnpackBE 1 true bs)
    pure (some v)
  else if size = 2 then do
    let bs ← Cursor.read 2
    let v ← liftE (structUnpackBE 2 true bs)
    pure (some v)
  else if size = 3 then do
    let v ← read_int24_be
    pure (some v)
  else if size = 4 then do
    let bs ← Cursor.read 4
    let v ← liftE (structUnpackBE 4 true bs)
    pure (some v)
  else if size = 5 then do
    let v ← read_int40_be
    pure (some v)
  else if size = 8 then do
    let bs ← Cursor.read 8
    let v ← liftE (structUnpackBE 4 true bs)
    pure (some v)
  else pure none

end StructMysqlReaders

/-! ### Wire-format constants

`protocol.py` does `from .constants import *`; the `constants` module is not
part of the sources under verification, so its values are taken from the
specification. -/

/-- Modelled from the spec: `pymysqlreplication.constants` is not under
`src/`; §6 gives the length-coded-integer prefix table: `0xFB` is the NULL
sentinel, `0xFC/0xFD/0xFE` announce 2/3/8-byte little-endian integers, and
any prefix below `0xFB` is the value itself. -/
def NULL_COLUMN : Nat := 251

/-- Modelled from the spec (§6 prefix table, see `NULL_COLUMN`). -/
def UNSIGNED_CHAR_COLUMN : Nat := 251

/-- Modelled from the spec (§6 prefix table, see `NULL_COLUMN`). -/
def UNSIGNED_SHORT_COLUMN : Nat := 252

/-- Modelled from the spec (§6 prefix table, see `NULL_COLUMN`). -/
def UNSIGNED_INT24_COLUMN : Nat := 253

/-- Modelled from the spec (§6 prefix table, see `NULL_COLUMN`). -/
def UNSIGNED_INT64_COLUMN : Nat := 254

/-- Modelled from the spec (§6 prefix table, see `NULL_COLUMN`). -/
def UNSIGNED_SHORT_LENGTH : Nat := 2

/-- Modelled from the spec (§6 prefix table, see `NULL_COLUMN`). -/
def UNSIGNED_INT24_LENGTH : Nat := 3

/-- Modelled from the spec (§6 prefix table, see `NULL_COLUMN`). -/
def UNSIGNED_INT64_LENGTH : Nat := 8

/-- Modelled from the spec: JSONB type tags of §4.4 (small/large object and
array, string, literal, fixed-width ints, double, the opaque wrapper); the
numeric values are MySQL's JSONB tag bytes, which the missing `constants`
module mirrors. -/
def JSONB_TYPE_SMALL_OBJECT : Nat := 0x0

/-- Modelled from the spec (§4.4 JSONB tags, see `JSONB_TYPE_SMALL_OBJECT`). -/
def JSONB_TYPE_LARGE_OBJECT : Nat := 0x1

/-- Modelled from the spec (§4.4 JSONB tags, see `JSONB_TYPE_SMALL_OBJECT`). -/
def JSONB_TYPE_SMALL_ARRAY : Nat := 0x2

/-- Modelled from the spec (§4.4 JSONB tags, see `JSONB_TYPE_SMALL_OBJECT`). -/
def JSONB_TYPE_LARGE_ARRAY : Nat := 0x3

/-- Modelled from the spec (§4.4 JSONB tags, see `JSONB_TYPE_SMALL_OBJECT`). -/
def JSONB_TYPE_LITERAL : Nat := 0x4

/-- Modelled from the spec (§4.4 JSONB tags, see `JSONB_TYPE_SMALL_OBJECT`). -/
def JSONB_TYPE_INT16 : Nat := 0x5

/-- Modelled from the spec (§4.4 JSONB tags, see `JSONB_TYPE_SMALL_OBJECT`). -/
def JSONB_TYPE_UINT16 : Nat := 0x6

/-- Modelled from the spec (§4.4 JSONB tags, see `JSONB_TYPE_SMALL_OBJECT`). -/
def JSONB_TYPE_INT32 : Nat := 0x7

/-- Modelled from the spec (§4.4 JSONB tags, see `JSONB_TYPE_SMALL_OBJECT`). -/
def JSONB_TYPE_UINT32 : Nat := 0x8

/-- Modelled from the spec (§4.4 JSONB tags, see `JSONB_TYPE_SMALL_OBJECT`). -/
def JSONB_TYPE_INT64 : Nat := 0x9

/-- Modelled from the spec (§4.4 JSONB tags, see `JSONB_TYPE_SMALL_OBJECT`). -/
def JSONB_TYPE_UINT64 : Nat := 0xA

/-- Modelled from the spec (§4.4 JSONB tags, see `JSONB_TYPE_SMALL_OBJECT`). -/
def JSONB_TYPE_DOUBLE : Nat := 0xB

/-- Modelled from the spec (§4.4 JSONB tags, see `JSONB_TYPE_SMALL_OBJECT`). -/
def JSONB_TYPE_STRING : Nat := 0xC

/-- Modelled from the spec (§4.4 JSONB tags, see `JSONB_TYPE_SMALL_OBJECT`). -/
def JSONB_TYPE_OPAQUE : Nat := 0xF

/-- Modelled from the spec (§4.4 literal values, see `JSONB_TYPE_SMALL_OBJECT`). -/
def JSONB_LITERAL_NULL : Nat := 0x0

/-- Modelled from the spec (§4.4 literal values, see `JSONB_TYPE_SMALL_OBJECT`). -/
def JSONB_LITERAL_TRUE : Nat := 0x1

/-- Modelled from the spec (§4.4 literal values, see `JSONB_TYPE_SMALL_OBJECT`). -/
def JSONB_LITERAL_FALSE : Nat := 0x2

/-! ### Length-coded integers -/

/-- `StructMysql.unpack_uint16`: `struct.unpack('<H', n[0:2])[0]` — the slice
truncates, then the unpack demands exactly 2 bytes. -/
def unpack_uint16 (n : List Nat) : Except Err Nat :=
  match n.take 2 with
  | [b0, b1] => Except.ok (b0 + 256 * b1)
  | _ => Except.error Err.structError

/-- `StructMysql.unpack_int24`: `n[0] + (n[1] << 8) + (n[2] << 16)` —
indexing raises `IndexError` when the buffer is shorter than 3 bytes. -/
def unpack_int24 (n : List Nat) : Except Err Nat :=
  match n with
  | b0 :: b1 :: b2 :: _ => Except.ok (b0 + (b1 <<< 8) + (b2 <<< 16))
  | _ => Except.error Err.indexError

/-- `StructMysql.unpack_int64`: the source sums only
`n[0] + (n[1] << 8) + (n[2] << 16) + (n[3] << 24) + (n[4] << 32)` — the
terms for bytes 5, 6 and 7 are missing, so only the low 5 of the 8 bytes
contribute to the value. -/
def unpack_int64 (n : List Nat) : Except Err Nat :=
  match n with
  | b0 :: b1 :: b2 :: b3 :: b4 :: _ =>
      Except.ok (b0 + (b1 <<< 8) + (b2 <<< 16) + (b3 <<< 24) + (b4 <<< 32))
  | _ => Except.error Err.indexError

/-- `StructMysql.read_length_coded_binary`: one prefix byte `c`, then either
the NULL sentinel (`none`), the literal value, or a 2/3/8-byte follow-up via
the `unpack_*` helpers.  A prefix of `0xFF` matches no branch and the Python
function implicitly returns `None`. -/
def read_length_coded_binary {σ : Type} [Cursor σ] : M σ (Option Nat) := do
  let c ← liftE (byte2int (← Cursor.read 1))
  if c = NULL_COLUMN then pure none
  else if c < UNSIGNED_CHAR_COLUMN then pure (some c)
  else if c = UNSIGNED_SHORT_COLUMN then do
    let n ← Cursor.read UNSIGNED_SHORT_LENGTH
    let v ← liftE (unpack_uint16 n)
    pure (some v)
  else if c = UNSIGNED_INT24_COLUMN then do
    let n ← Cursor.read UNSIGNED_INT24_LENGTH
    let v ← liftE (unpack_int24 n)
    pure (some v)
  else if c = UNSIGNED_INT64_COLUMN then do
    let n ← Cursor.read UNSIGNED_INT64_LENGTH
    let v ← liftE (unpack_int64 n)
    pure (some v)
  else pure none

/-! ### Variable-length (continuation-bit) strings -/

/-- The `while byte & 0x80 != 0` loop of
`StructMysql.read_variable_length_string`: reads one byte per iteration,
adding its low 7 bits at the current bit offset.  `fuel` only bounds the
recursion; callers pass more fuel than the payload has bytes, and reading
past the payload stops the loop with the `byte2int` error exactly as in
Python, so `fuelOut` is unreachable. -/
def readVarLenLoop {σ : Type} [Cursor σ] : Nat → Nat → Nat → M σ Nat
  | 0, _, _ => throwM Err.fuelOut
  | fuel + 1, length, bits_read => do
      let byte ← liftE (byte2int (← Cursor.read 1))
      let length := length ||| ((byte &&& 0x7f) <<< bits_read)
      if byte &&& 0x80 ≠ 0 then readVarLenLoop fuel length (bits_read + 7)
      else pure length

/-- `StructMysql.read_variable_length_string`: decode the continuation-bit
length, then read that many payload bytes. -/
def read_variable_length_string : M JState (List Nat) := do
  let s ← getS
  let length ← readVarLenLoop (s.payload.length + 1) 0 0
  Cursor.read length

/-! ### JSONB values -/

/-- Decoded JSONB value as produced by `WrapperJson`: Python `None`, `bool`,
`int`, `float` (kept as the raw 8 little-endian bytes' value — no IEEE
semantics are needed by any claim), `bytes` for strings and keys, `dict`
(insertion-ordered key/value list) and `list`. -/
inductive JsonValue where
  | null
  | bool (b : Bool)
  | int (i : Int)
  | double (bits : Nat)
  | str (bytes : List Nat)
  | obj (fields : List (List Nat × JsonValue))
  | arr (elems : List JsonValue)

/-- One entry of a container's value-slot table, the result of
`read_offset_or_inline`: either an inline small value `(t, None, value)` or
a stored-value reference `(t, offset, None)`. -/
inductive Slot where
  | inline (t : Nat) (v : JsonValue)
  | stored (t : Nat) (off : Nat)

/-- Python `out[key] = data` on an insertion-ordered `dict`: replace in
place if the key exists, else append. -/
def dictInsert : List (List Nat × JsonValue) → List Nat → JsonValue →
    List (List Nat × JsonValue)
  | [], k, v => [(k, v)]
  | (k0, v0) :: rest, k, v =>
      if k0 = k then (k0, v) :: rest else (k0, v0) :: dictInsert rest k v

/-- `WrapperJson.read_binary_json_type_inlined`: the inline-value decoder for
slot-table entries; a literal is 2 bytes (4 when `large`), the integer tags
are their fixed widths; an unknown tag — or a literal byte other than
null/true/false, which falls off the `elif` chain — raises `ValueError`. -/
def read_binary_json_type_inlined (t : Nat) (large : Bool) : M JState JsonValue := do
  if t = JSONB_TYPE_LITERAL then
    let value ← if large then read_uint32 else read_uint16
    if value = JSONB_LITERAL_NULL then pure JsonValue.null
    else if value = JSONB_LITERAL_TRUE then pure (JsonValue.bool true)
    else if value = JSONB_LITERAL_FALSE then pure (JsonValue.bool false)
    else throwM Err.valueError
  else if t = JSONB_TYPE_INT16 then do
    let v ← read_int16
    pure (JsonValue.int v)
  else if t = JSONB_TYPE_UINT16 then do
    let v ← read_uint16
    pure (JsonValue.int v)
  else if t = JSONB_TYPE_INT32 then do
    let v ← read_int32
    pure (JsonValue.int v)
  else if t = JSONB_TYPE_UINT32 then do
    let v ← read_uint32
    pure (JsonValue.int v)
  else if t = JSONB_TYPE_INT64 then do
    let v ← read_int64
    pure (JsonValue.int v)
  else if t = JSONB_TYPE_UINT64 then do
    let v ← read_uint64
    pure (JsonValue.int v)
  else throwM Err.valueError

/-- `read_offset_or_inline` (module-level function in `protocol.py`): read
the slot's type byte, then either decode the inline value (literal and
16-bit tags always; 32-bit tags only in `large` containers) or read the
2-byte (4-byte when `large`) stored-value offset. -/
def read_offset_or_inline (large : Bool) : M JState Slot := do
  let t ← read_uint8
  if t = JSONB_TYPE_LITERAL ∨ t = JSONB_TYPE_INT16 ∨ t = JSONB_TYPE_UINT16 then do
    let v ← read_binary_json_type_inlined t large
    pure (Slot.inline t v)
  else if large ∧ (t = JSONB_TYPE_INT32 ∨ t = JSONB_TYPE_UINT32) then do
    let v ← read_binary_json_type_inlined t large
    pure (Slot.inline t v)
  else if large then do
    let off ← read_uint32
    pure (Slot.stored t off)
  else do
    let off ← read_uint16
    pure (Slot.stored t off)

/-! ### Packed ("new") decimal -/

/-- `self.read_int_be_by_size(size) ^ mask` as one step: when
`read_int_be_by_size` falls through every width branch it returns Python
`None`, and xor-ing `None` with an int raises `TypeError`. -/
def read_int_be_masked {σ : Type} [Cursor σ] (size : Nat) (mask : Int) : M σ Int := do
  match ← read_int_be_by_size size with
  | some v => pure (intXor v (mask : Int))
  | none => throwM Err.typeError

/-- `WrapperJson.read_new_decimal` exactly as it stands in `protocol.py`,
invoked on the JSON payload cursor: it reads precision, scale and the sign
byte and then calls `self.unread(...)` — but neither `WrapperJson` nor
`WrapperPayload` nor `StructMysql` defines `unread` (only
`BinLogPacketWrapper` in `packet.py` does), so the attribute lookup raises
`AttributeError` before the argument is evaluated and before any magnitude
group is read. -/
def read_new_decimal : M JState String := do
  let _precision ← read_uint8
  let _decimals ← read_uint8
  let value ← read_uint8
  let _res_mask := if value &&& 0x80 ≠ 0 then ("", (0 : Int)) else ("-", (-1 : Int))
  throwM Err.attributeError

/-- Modelled from the spec: §4.1 specifies a ByteCursor with both `read` and
`pushback`, and §4.5 the packed-decimal algorithm over it, but no class under
`src/` offers both (`BinLogPacketWrapper` in `packet.py` has `read`/`unread`
but not the decimal method; `WrapperJson` has the decimal method but no
`unread`).  This definition is the body of `WrapperJson.read_new_decimal`,
line for line, run over the `BState` cursor whose `read` and `unread` are the
source methods of `BinLogPacketWrapper`. -/
def read_new_decimal_pushback : M BState String := do
  let precision ← read_uint8
  let decimals ← read_uint8
  let digits_per_integer : Int := 9
  let compressed_bytes : List Nat := [0, 1, 1, 2, 2, 3, 3, 4, 4, 4]
  let integral : Int := (precision : Int) - (decimals : Int)
  let uncomp_integral : Int := pyIntDiv integral digits_per_integer
  let uncomp_fractional : Int := pyIntDiv (decimals : Int) digits_per_integer
  let comp_integral : Int := integral - uncomp_integral * digits_per_integer
  let comp_fractional : Int := (decimals : Int) - uncomp_fractional * digits_per_integer
  let value ← read_uint8
  let res_mask := if value &&& 0x80 ≠ 0 then ("", (0 : Int)) else ("-", (-1 : Int))
  let res := res_mask.1
  let mask := res_mask.2
  let packed ← liftE (structPackB (value ^^^ 0x80))
  unreadM packed
  let size ← liftE (pyIndex compressed_bytes comp_integral)
  let res ← if size > 0 then do
      let v ← read_int_be_masked size mask
      pure (res ++ toString v)
    else pure res
  let res ← (List.range uncomp_integral.toNat).foldlM (fun r _ => do
      let bs ← Cursor.read 4
      let v ← liftE (structUnpackBE 4 true bs)
      pure (r ++ pyFormatZero 9 (intXor v mask))) res
  let res := res ++ "."
  let res ← (List.range uncomp_fractional.toNat).foldlM (fun r _ => do
      let bs ← Cursor.read 4
      let v ← liftE (structUnpackBE 4 true bs)
      pure (r ++ pyFormatZero 9 (intXor v mask))) res
  let sizeF ← liftE (pyIndex compressed_bytes comp_fractional)
  let res ← if sizeF > 0 then do
      let v ← read_int_be_masked sizeF mask
      pure (res ++ pyFormatZero comp_fractional.toNat v)
    else pure res
  pure res

/-- `WrapperJson.read_opaque`: a 1-byte sub-type tag; only the packed-decimal
sub-type 246 is handled, any other raises `ValueError` (the spec's
`UnsupportedOpaqueTypeError`). -/
def read_opaque (_length : Int) : M JState String := do
  let t ← read_uint8
  if t = 246 then read_new_decimal
  else throwM Err.valueError

/-! ### JSONB containers -/

mutual

/-- `WrapperJson.read_binary_json_type`: dispatch on the 1-byte type tag
(already read by the caller).  The `fuel` argument only bounds the recursion
depth of the embedding; every theorem supplies enough. -/
def read_binary_json_type : Nat → Nat → Int → M JState JsonValue
  | 0, _, _ => throwM Err.fuelOut
  | fuel + 1, t, length => do
      let large := t = JSONB_TYPE_LARGE_OBJECT ∨ t = JSONB_TYPE_LARGE_ARRAY
      if t = JSONB_TYPE_SMALL_OBJECT ∨ t = JSONB_TYPE_LARGE_OBJECT then do
        let fields ← read_binary_json_object fuel (length - 1) large
        pure (JsonValue.obj fields)
      else if t = JSONB_TYPE_SMALL_ARRAY ∨ t = JSONB_TYPE_LARGE_ARRAY then do
        let elems ← read_binary_json_array fuel (length - 1) large
        pure (JsonValue.arr elems)
      else if t = JSONB_TYPE_STRING then do
        let bs ← read_variable_length_string
        pure (JsonValue.str bs)
      else if t = JSONB_TYPE_LITERAL then do
        let value ← read_uint8
        if value = JSONB_LITERAL_NULL then pure JsonValue.null
        else if value = JSONB_LITERAL_TRUE then pure (JsonValue.bool true)
        else if value = JSONB_LITERAL_FALSE then pure (JsonValue.bool false)
        else throwM Err.valueError
      else if t = JSONB_TYPE_INT16 then do
        let v ← read_int16
        pure (JsonValue.int v)
      else if t = JSONB_TYPE_UINT16 then do
        let v ← read_uint16
        pure (JsonValue.int v)
      else if t = JSONB_TYPE_DOUBLE then do
        let bs ← Cursor.read 8
        if bs.length = 8 then pure (JsonValue.double (leNat bs))
        else throwM Err.structError
      else if t = JSONB_TYPE_INT32 then do
        let v ← read_int32
        pure (JsonValue.int v)
      else if t = JSONB_TYPE_UINT32 then do
        let v ← read_uint32
        pure (JsonValue.int v)
      else if t = JSONB_TYPE_INT64 then do
        let v ← read_int64
        pure (JsonValue.int v)
      else if t = JSONB_TYPE_UINT64 then do
        let v ← read_uint64
        pure (JsonValue.int v)
      else if t = JSONB_TYPE_OPAQUE then do
        -- the ok value would be a Decimal object; carried as its string here,
        -- but this path always errors because read_new_decimal has no unread
        let s ← read_opaque length
        pure (JsonValue.str (s.toList.map Char.toNat))
      else throwM Err.valueError

/-- The `try/except` block of `WrapperJson.read_binary_json_object`'s field
loop: an inline slot yields its value directly; a stored slot is decoded
recursively at the current position, and *any* failure is caught and
replaced by `None` — the cursor keeps whatever the partial decode
consumed. -/
def objFieldData : Nat → Int → Slot → M JState JsonValue
  | 0, _, _ => throwM Err.fuelOut
  | fuel + 1, length, slot =>
      match slot with
      | Slot.inline _ v => pure v
      | Slot.stored t _ => fun s =>
          match read_binary_json_type fuel t length s with
          | (Except.ok v, s1) => (Except.ok v, s1)
          | (Except.error _, s1) => (Except.ok JsonValue.null, s1)

/-- The nested `_read` of `WrapperJson.read_binary_json_array`: an inline
slot yields its value; a stored slot is decoded recursively, and errors
propagate — there is no `try/except` here. -/
def arrFieldData : Nat → Int → Slot → M JState JsonValue
  | 0, _, _ => throwM Err.fuelOut
  | fuel + 1, length, slot =>
      match slot with
      | Slot.inline _ v => pure v
      | Slot.stored t _ => read_binary_json_type fuel t length

/-- The container header common to `read_binary_json_object` and
`read_binary_json_array`: `if large:` element count and declared size as two
4-byte reads, `else:` as two 2-byte reads. -/
def readCountSize (large : Bool) : M JState (Nat × Nat) :=
  if large then do
    let elements ← read_uint32
    let size ← read_uint32
    pure (elements, size)
  else do
    let elements ← read_uint16
    let size ← read_uint16
    pure (elements, size)

/-- `WrapperJson.read_binary_json_object`: element count and declared size
(2-byte fields, 4-byte when `large`), the size bound check, the key
offset/length table, the value-slot table, the first-key fast-forward
(`key_offset_lengths[0]` — an `IndexError` when the table is empty), the
keys, then the field loop with per-field error isolation. -/
def read_binary_json_object : Nat → Int → Bool → M JState (List (List Nat × JsonValue))
  | 0, _, _ => throwM Err.fuelOut
  | fuel + 1, length, large => do
      let es ← readCountSize large
      let elements := es.1
      let size := es.2
      if (size : Int) > length then throwM Err.malformedJson
      else do
        let key_offset_lengths ← (List.range elements).mapM (fun _ => do
            let off ← if large then read_uint32 else read_uint16
            let klen ← read_uint16
            pure (off + 1, klen))
        let slots ← (List.range elements).mapM (fun _ => read_offset_or_inline large)
        match key_offset_lengths with
        | [] => throwM Err.indexError
        | k0 :: _ => do
            modifyS (fun s => if k0.1 > s.point then { s with point := k0.1 } else s)
            let keys ← key_offset_lengths.mapM (fun kl => Cursor.read kl.2)
            (keys.zip slots).foldlM (fun out ks => do
                let data ← objFieldData fuel length ks.2
                pure (dictInsert out ks.1 data)) []

/-- `WrapperJson.read_binary_json_array`: element count and declared size,
the same size bound check, the value-slot table, then each slot resolved via
`_read` (`arrFieldData`) with errors propagating. -/
def read_binary_json_array : Nat → Int → Bool → M JState (List JsonValue)
  | 0, _, _ => throwM Err.fuelOut
  | fuel + 1, length, large => do
      let es ← readCountSize large
      let elements := es.1
      let size := es.2
      if (size : Int) > length then throwM Err.malformedJson
      else do
        let values_type_offset_inline ←
          (List.range elements).mapM (fun _ => read_offset_or_inline large)
        values_type_offset_inline.mapM (fun x => arrFieldData fuel length x)

end

/-! ### Event frame header (`packet.BinLogPacketWrapper.__init__`) -/

/-- The decoded 20-byte event header. -/
structure EventHeader where
  timestamp : Nat
  event_type : Nat
  server_id : Nat
  event_size : Nat
  log_pos : Nat
  flags : Nat
deriving DecidableEq

/-- `struct.unpack('<cIcIIIH', ...)`: one reserved byte, four little-endian
32-bit fields with a type byte after the first, and a 16-bit field; the
buffer must be exactly 20 bytes. -/
def unpack_cIcIIIH (bs : List Nat) :
    Except Err (Nat × Nat × Nat × Nat × Nat × Nat × Nat) :=
  if bs.length = 20 then
    Except.ok (bs.getD 0 0,
      leNat ((bs.drop 1).take 4),
      bs.getD 5 0,
      leNat ((bs.drop 6).take 4),
      leNat ((bs.drop 10).take 4),
      leNat ((bs.drop 14).take 4),
      leNat ((bs.drop 18).take 2))
  else Except.error Err.structError

/-- Lines 88–91 of `packet.py`: body size is the declared event size minus
the 23-byte header when a CRC32 checksum footer is in use, minus the plain
19-byte header otherwise. -/
def event_size_without_header (use_checksum : Bool) (event_size : Nat) : Int :=
  if use_checksum then (event_size : Int) - 23 else (event_size : Int) - 19

/-- The header phase of `BinLogPacketWrapper.__init__`: `read_bytes` is
initialised to 0 and the 20 header bytes are pulled with
`self.packet.read(20)` — directly from the wrapped packet, not through the
counting `self.read` — then unpacked into the header fields.  Returns the
header, the computed body length, and the wrapper state positioned at the
body start. -/
def BinLogPacketWrapper.init (use_checksum : Bool) (packet : List Nat) :
    Except Err (EventHeader × Int × BState) :=
  match packetRead 20 packet with
  | (Except.error e, _) => Except.error e
  | (Except.ok bs, rest) =>
    match unpack_cIcIIIH bs with
    | Except.error e => Except.error e
    | Except.ok (_ok, ts, et, sid, esz, lpos, flags) =>
      Except.ok ({ timestamp := ts, event_type := et, server_id := sid,
                   event_size := esz, log_pos := lpos, flags := flags },
        event_size_without_header use_checksum esz,
        { read_bytes := 0, data_buffer := [], packet := rest })

/-! ### Exact decimal strings -/

/-- Digit-string value: defined only when the list is nonempty and all
characters are decimal digits. -/
def digitsToNat (l : List Char) : Option Nat :=
  if l ≠ [] ∧ l.all (fun c => c.isDigit) then
    some (l.foldl (fun acc c => acc * 10 + (c.toNat - 48)) 0)
  else none

/-- Unsigned decimal string (`digits` or `digits.digits`) as an exact scaled
integer: the pair `(n, k)` denotes the value `n / 10^k`. -/
def decUnsigned (l : List Char) : Option (Nat × Nat) :=
  let ip := l.takeWhile (fun c => c ≠ '.')
  let rest := l.dropWhile (fun c => c ≠ '.')
  match rest with
  | [] => (digitsToNat ip).map (fun n => (n, 0))
  | _ :: fp => do
      let i ← digitsToNat ip
      let f ← digitsToNat fp
      pure (i * 10 ^ fp.length + f, fp.length)

/-- The exact value a plain decimal string denotes, as a scaled integer
`(n, k)` meaning `n / 10^k` — the value `decimal.Decimal` constructs from
the strings `read_new_decimal` builds (optional minus sign, integer digits,
a point, fractional digits), never through a binary float. -/
def decOfString (s : String) : Option (Int × Nat) :=
  match s.toList with
  | '-' :: rest => (decUnsigned rest).map (fun p => (-(p.1 : Int), p.2))
  | l => (decUnsigned l).map (fun p => ((p.1 : Int), p.2))

/-- The rational value of a scaled decimal `(n, k)`. -/
def decToRat (p : Int × Nat) : ℚ := (p.1 : ℚ) / 10 ^ p.2

/-! ### Operation traces over the packet wrapper -/

/-- One cursor operation of the `BinLogPacketWrapper` byte-counting API. -/
inductive BOp where
  | read (n : Nat)
  | advance (n : Nat)
  | unread (data : List Nat)

/-- Apply one operation, keeping only the resulting wrapper state. -/
def applyBOp (o : BOp) (st : BState) : BState :=
  match o with
  | BOp.read n => (BinLogPacketWrapper.read n st).2
  | BOp.advance n => (BinLogPacketWrapper.advance n st).2
  | BOp.unread d => BinLogPacketWrapper.unread d st

/-- The net counter effect each operation is supposed to have: `read` and
`advance` add their size, `unread` subtracts the pushed-back length. -/
def netDelta : BOp → Int
  | BOp.read n => (n : Int)
  | BOp.advance n => (n : Int)
  | BOp.unread d => -(d.length : Int)

/-- Run a sequence of operations against the wrapper state. -/
def applyBOps (ops : List BOp) (st : BState) : BState :=
  ops.foldl (fun s o => applyBOp o s) st

/-! ### Helper lemmas -/

theorem Mbind_apply {σ α β : Type} (x : M σ α) (f : α → M σ β) (s : σ) :
    (x >>= f) s =
      match x s with
      | (Except.ok a, s1) => f a s1
      | (Except.error e, s1) => (Except.error e, s1) := rfl

theorem Mpure_apply {σ α : Type} (a : α) (s : σ) :
    (pure a : M σ α) s = (Except.ok a, s) := rfl

theorem shiftLeft_lor_eq_add (a : Nat) :
    ∀ (k x : Nat), x < 2 ^ k → (a <<< k) ||| x = a * 2 ^ k + x := by
  intro k
  induction k with
  | zero =>
    intro x h
    have h1 : (2:Nat) ^ 0 = 1 := by norm_num
    have hx0 : x = 0 := by omega
    subst hx0
    simp [Nat.shiftLeft_eq]
  | succ k ih =>
    intro x h
    have hpow : (2:Nat) ^ (k + 1) = 2 ^ k * 2 := pow_succ 2 k
    have e1 : a <<< (k + 1) = Nat.bit false (a <<< k) := by
      simp [Nat.bit, Nat.shiftLeft_eq, pow_succ]
      ring
    have hxd : x % 2 = 1 ∨ x % 2 = 0 := by omega
    have e2 : x = Nat.bit (decide (x % 2 = 1)) (x / 2) := by
      rcases hxd with hp | hp <;> simp [Nat.bit, hp] <;> omega
    have ihx : (a <<< k) ||| (x / 2) = a * 2 ^ k + x / 2 := by
      apply ih
      omega
    conv_lhs => rw [e1, e2, Nat.lor_bit, Bool.false_or, ihx]
    conv_rhs => rw [e2, hpow]
    rcases hxd with hp | hp <;> simp [Nat.bit, hp] <;> ring

theorem packetRead_ok_length :
    ∀ (n : Nat) (pkt d p : List Nat), packetRead n pkt = (Except.ok d, p) → d.length = n := by
  intro n pkt d p h
  unfold packetRead at h
  split at h
  · simp only [Prod.mk.injEq, Except.ok.injEq] at h
    obtain ⟨h1, h2⟩ := h
    rw [← h1]
    simp [List.length_take]
    omega
  · simp at h

theorem read_bumps_counter :
    ∀ (st : BState) (n : Nat),
      ((BinLogPacketWrapper.read n st).2).read_bytes = st.read_bytes + n := by
  intro st n
  unfold BinLogPacketWrapper.read
  dsimp only
  split
  · split
    · rfl
    · split <;> rfl
  · split <;> rfl

theorem advance_bumps_counter :
    ∀ (st : BState) (n : Nat),
      ((BinLogPacketWrapper.advance n st).2).read_bytes = st.read_bytes + n := by
  intro st n
  unfold BinLogPacketWrapper.advance
  dsimp only
  split
  · split
    · rfl
    · rfl
  · rfl

theorem unread_drops_counter :
    ∀ (st : BState) (d : List Nat),
      (BinLogPacketWrapper.unread d st).read_bytes = st.read_bytes - d.length := by
  intro st d
  rfl

theorem init_counter_zero :
    ∀ (cs : Bool) (pkt : List Nat) (hdr : EventHeader) (bl : Int) (st : BState),
      BinLogPacketWrapper.init cs pkt = Except.ok (hdr, bl, st) → st.read_bytes = 0 := by
  intro cs pkt hdr bl st h
  unfold BinLogPacketWrapper.init at h
  split at h
  · simp at h
  · split at h
    · simp at h
    · simp only [Except.ok.injEq, Prod.mk.injEq] at h
      obtain ⟨h1, h2, h3⟩ := h
      rw [← h3]

theorem applyBOps_counter :
    ∀ (ops : List BOp) (st : BState),
      (applyBOps ops st).read_bytes = st.read_bytes + (ops.map netDelta).sum := by
  intro ops
  induction ops with
  | nil =>
    intro st
    simp [applyBOps]
  | cons o ops ih =>
    intro st
    have hstep : (applyBOp o st).read_bytes = st.read_bytes + netDelta o := by
      cases o with
      | read n => simpa using read_bumps_counter st n
      | advance n => simpa using advance_bumps_counter st n
      | unread d => simpa [netDelta] using unread_drops_counter st d
    calc (applyBOps (o :: ops) st).read_bytes
        = (applyBOps ops (applyBOp o st)).read_bytes := by simp [applyBOps]
      _ = (applyBOp o st).read_bytes + (ops.map netDelta).sum := ih _
      _ = st.read_bytes + ((o :: ops).map netDelta).sum := by
            rw [hstep]
            simp [List.map_cons, List.sum_cons]
            ring

theorem binlog_read_exact :
    ∀ (st : BState) (n : Nat) (d : List Nat) (st1 : BState),
      BinLogPacketWrapper.read n st = (Except.ok d, st1) → d.length = n := by
  intro st n d st1 h
  unfold BinLogPacketWrapper.read at h
  dsimp only at h
  split at h
  · split at h
    · simp only [Prod.mk.injEq, Except.ok.injEq] at h
      obtain ⟨h1, h2⟩ := h
      rw [← h1]
      assumption
    · split at h
      next more pkt1 heq =>
        simp only [Prod.mk.injEq, Except.ok.injEq] at h
        obtain ⟨h1, h2⟩ := h
        have hm := packetRead_ok_length _ _ _ _ heq
        have htk : (List.take n st.data_buffer).length ≤ n := by
          simp [List.length_take]
        rw [← h1]
        simp only [List.length_append]
        omega
      next e pkt1 heq =>
        simp at h
  · split at h
    next dd pkt1 heq =>
      simp only [Prod.mk.injEq, Except.ok.injEq] at h
      obtain ⟨h1, h2⟩ := h
      rw [← h1]
      exact packetRead_ok_length _ _ _ _ heq
    next e pkt1 heq =>
      simp at h

theorem unread_empty_buffer_read_back :
    ∀ (st : BState) (b : List Nat), st.data_buffer = [] →
      BinLogPacketWrapper.read b.length (BinLogPacketWrapper.unread b st) = (Except.ok b, st) := by
  intro st b hb
  obtain ⟨rb, db, pk⟩ := st
  simp only at hb
  subst hb
  cases b with
  | nil =>
    simp [BinLogPacketWrapper.read, BinLogPacketWrapper.unread, packetRead]
  | cons x xs =>
    simp [BinLogPacketWrapper.read, BinLogPacketWrapper.unread, packetRead,
      List.take_length, List.drop_length]

theorem pushback_scenario :
    ∀ st : BState, st.data_buffer = [] → st.read_bytes = 0 → 5 ≤ st.packet.length →
      BinLogPacketWrapper.read 5 st =
        (Except.ok (st.packet.take 5),
         { read_bytes := 5, data_buffer := [], packet := st.packet.drop 5 })
      ∧ BinLogPacketWrapper.read 2
          (BinLogPacketWrapper.unread ((st.packet.take 5).take 2)
            { read_bytes := 5, data_buffer := [], packet := st.packet.drop 5 }) =
        (Except.ok ((st.packet.take 5).take 2),
         { read_bytes := 5, data_buffer := [], packet := st.packet.drop 5 }) := by
  intro st hb hrb hlen
  obtain ⟨rb, db, pk⟩ := st
  simp only at hb hrb hlen
  subst hb
  subst hrb
  constructor
  · simp [BinLogPacketWrapper.read, packetRead, hlen]
  · have h2 : ((pk.take 5).take 2).length = 2 := by
      simp [List.length_take]
      omega
    simp [BinLogPacketWrapper.read, BinLogPacketWrapper.unread, packetRead, h2]

theorem int_be_size1 :
    ∀ (pl rest : List Nat) (pt b : Nat), pl.drop pt = b :: rest →
      read_int_be_by_size 1 (⟨pl, pt⟩ : JState) =
        (Except.ok (some (if b < 128 then (b : Int) else (b : Int) - 256)), ⟨pl, pt + 1⟩) := by
  intro pl rest pt b hdrop
  simp [read_int_be_by_size, Mbind_apply, Mpure_apply, liftE, Cursor.read, WrapperPayload.read,
    hdrop, structUnpackBE, beNat, toSigned]

set_option maxRecDepth 4000 in
theorem int_be_size2 :
    ∀ (pl rest : List Nat) (pt b0 b1 : Nat), pl.drop pt = b0 :: b1 :: rest →
      read_int_be_by_size 2 (⟨pl, pt⟩ : JState) =
        (Except.ok (some (if b0 * 256 + b1 < 32768 then ((b0 * 256 + b1 : Nat) : Int)
           else ((b0 * 256 + b1 : Nat) : Int) - 65536)), ⟨pl, pt + 2⟩) := by
  intro pl rest pt b0 b1 hdrop
  simp only [read_int_be_by_size]
  norm_num
  simp only [Mbind_apply, liftE, Cursor.read, WrapperPayload.read, hdrop]
  simp only [List.take_succ_cons, List.take_zero]
  simp only [structUnpackBE, beNat, List.foldl, List.length_cons, List.length_nil]
  norm_num
  unfold toSigned
  norm_num
  split_ifs <;> simp [Mpure_apply]

theorem int_be_size3 :
    ∀ (pl rest : List Nat) (pt a b c : Nat), pl.drop pt = a :: b :: c :: rest →
      b < 256 → c < 256 →
      read_int_be_by_size 3 (⟨pl, pt⟩ : JState) =
        (Except.ok (some (if a * 65536 + b * 256 + c < 8388608
           then ((a * 65536 + b * 256 + c : Nat) : Int)
           else ((a * 65536 + b * 256 + c : Nat) : Int) - 16777216)), ⟨pl, pt + 3⟩) := by
  intro pl rest pt a b c hdrop hb hc
  have h256 : (2:Nat) ^ 8 = 256 := by norm_num
  have h65536 : (2:Nat) ^ 16 = 65536 := by norm_num
  have hbc : (b <<< 8) ||| c = b * 256 + c := by
    rw [shiftLeft_lor_eq_add b 8 c (by omega)]
    omega
  have habc : (a <<< 16) ||| (b <<< 8) ||| c = a * 65536 + b * 256 + c := by
    rw [Nat.lor_assoc, hbc, shiftLeft_lor_eq_add a 16 (b * 256 + c) (by omega)]
    omega
  simp [read_int_be_by_size, read_int24_be, Mbind_apply, Mpure_apply, liftE, Cursor.read,
    WrapperPayload.read, hdrop]
  rw [habc]
  split_ifs <;> simp [Mpure_apply] <;> omega

set_option maxRecDepth 4000 in
theorem int_be_size4 :
    ∀ (pl rest : List Nat) (pt b0 b1 b2 b3 : Nat), pl.drop pt = b0 :: b1 :: b2 :: b3 :: rest →
      read_int_be_by_size 4 (⟨pl, pt⟩ : JState) =
        (Except.ok (some (if b0 * 16777216 + b1 * 65536 + b2 * 256 + b3 < 2147483648
           then ((b0 * 16777216 + b1 * 65536 + b2 * 256 + b3 : Nat) : Int)
           else ((b0 * 16777216 + b1 * 65536 + b2 * 256 + b3 : Nat) : Int) - 4294967296)),
         ⟨pl, pt + 4⟩) := by
  intro pl rest pt b0 b1 b2 b3 hdrop
  simp only [read_int_be_by_size]
  norm_num
  simp only [Mbind_apply, liftE, Cursor.read, WrapperPayload.read, hdrop]
  simp only [List.take_succ_cons, List.take_zero]
  simp only [structUnpackBE, beNat, List.foldl, List.length_cons, List.length_nil]
  norm_num
  unfold toSigned
  norm_num
  split_ifs <;> simp [Mpure_apply] <;> omega

theorem int_be_size5 :
    ∀ (pl rest : List Nat) (pt b0 b1 b2 b3 b4 : Nat),
      pl.drop pt = b0 :: b1 :: b2 :: b3 :: b4 :: rest →
      read_int_be_by_size 5 (⟨pl, pt⟩ : JState) =
        (Except.ok
           (some ((b0 * 4294967296 + b1 * 16777216 + b2 * 65536 + b3 * 256 + b4 : Nat) : Int)),
         ⟨pl, pt + 5⟩) := by
  intro pl rest pt b0 b1 b2 b3 b4 hdrop
  simp [read_int_be_by_size, read_int40_be, Mbind_apply, Mpure_apply, liftE, Cursor.read,
    WrapperPayload.read, hdrop, beNat, Nat.shiftLeft_eq]
  ring

theorem int_be_size8 :
    ∀ (pl : List Nat) (pt : Nat), 8 ≤ pl.length - pt →
      read_int_be_by_size 8 (⟨pl, pt⟩ : JState) =
        (Except.error Err.structError, ⟨pl, pt + 8⟩) := by
  intro pl pt h
  have hlen : ((pl.drop pt).take 8).length = 8 := by
    simp [List.length_take, List.length_drop]
    omega
  simp [read_int_be_by_size, Mbind_apply, Mpure_apply, liftE, Cursor.read, WrapperPayload.read,
    structUnpackBE, hlen, throwM]

theorem event_header_fields :
    ∀ (cs : Bool) (b0 b1 b2 b3 b4 b5 b6 b7 b8 b9 b10 b11 b12 b13 b14 b15 b16 b17 b18 b19 : Nat)
      (rest : List Nat),
      BinLogPacketWrapper.init cs
        (b0 :: b1 :: b2 :: b3 :: b4 :: b5 :: b6 :: b7 :: b8 :: b9 :: b10 :: b11 :: b12 :: b13 ::
          b14 :: b15 :: b16 :: b17 :: b18 :: b19 :: rest) =
      Except.ok
        ({ timestamp := b1 + b2 * 256 + b3 * 65536 + b4 * 16777216,
           event_type := b5,
           server_id := b6 + b7 * 256 + b8 * 65536 + b9 * 16777216,
           event_size := b10 + b11 * 256 + b12 * 65536 + b13 * 16777216,
           log_pos := b14 + b15 * 256 + b16 * 65536 + b17 * 16777216,
           flags := b18 + b19 * 256 },
         (if cs then ((b10 + b11 * 256 + b12 * 65536 + b13 * 16777216 : Nat) : Int) - 23
          else ((b10 + b11 * 256 + b12 * 65536 + b13 * 16777216 : Nat) : Int) - 19),
         { read_bytes := 0, data_buffer := [], packet := rest }) := by
  intro cs b0 b1 b2 b3 b4 b5 b6 b7 b8 b9 b10 b11 b12 b13 b14 b15 b16 b17 b18 b19 rest
  unfold BinLogPacketWrapper.init packetRead unpack_cIcIIIH event_size_without_header
  simp [leNat]
  constructor
  · omega
  · cases cs <;> simp <;> omega

/-! ### Claims -/

/-- Claim C1: packed-decimal decode at precision 8, scale 4 is exact and
sign-correct — the sign comes from the top bit of the first byte, that byte
is corrected and pushed back to be re-read as the first magnitude byte, and
the all-ones XOR mask applies only in the negative case.  On the code as it
stands, `WrapperJson.read_new_decimal` raises `AttributeError` at
`self.unread` (no class in `protocol.py` defines `unread`), so the
JSONB-opaque decode path fails after the sign byte; run over a cursor that
does provide the source's `unread` (`read_new_decimal_pushback`), the
algorithm decodes the encodings of `1234.5678` and `-1234.5678` to exactly
those values. -/
theorem decimal_roundtrip_evaluation :
    read_new_decimal ⟨[8, 4, 132, 210, 22, 46], 0⟩ =
      (Except.error Err.attributeError, ⟨[8, 4, 132, 210, 22, 46], 3⟩)
    ∧ read_opaque 10 ⟨[246, 8, 4, 132, 210, 22, 46], 0⟩ =
      (Except.error Err.attributeError, ⟨[246, 8, 4, 132, 210, 22, 46], 4⟩)
    ∧ read_new_decimal_pushback { read_bytes := 0, data_buffer := [], packet := [8, 4, 132, 210, 22, 46] } =
      (Except.ok "1234.5678", { read_bytes := 6, data_buffer := [], packet := [] })
    ∧ read_new_decimal_pushback { read_bytes := 0, data_buffer := [], packet := [8, 4, 123, 45, 233, 209] } =
      (Except.ok "-1234.5678", { read_bytes := 6, data_buffer := [], packet := [] })
    ∧ decOfString "1234.5678" = some (12345678, 4)
    ∧ decOfString "-1234.5678" = some (-12345678, 4) :=
  ⟨rfl, rfl, rfl, rfl, by decide, by decide⟩

/-- Claim C2: the length-coded-integer reader returns no value for the
0xFB sentinel (never the number 251), the byte itself below 0xFB, and a
2- or 3-byte little-endian value after 0xFC/0xFD — all as claimed — but for the
0xFE prefix `unpack_int64` sums only the low five of the eight bytes read, so
the 8-byte little-endian value 2^40 (bytes `[0,0,0,0,0,1,0,0]`) decodes to 0
instead of 1099511627776. -/
theorem length_coded_binary_evaluation :
    read_length_coded_binary (⟨[0], 0⟩ : JState) = (Except.ok (some 0), ⟨[0], 1⟩)
    ∧ read_length_coded_binary (⟨[250], 0⟩ : JState) = (Except.ok (some 250), ⟨[250], 1⟩)
    ∧ read_length_coded_binary (⟨[251], 0⟩ : JState) = (Except.ok none, ⟨[251], 1⟩)
    ∧ read_length_coded_binary (⟨[252, 255, 255], 0⟩ : JState) =
        (Except.ok (some 65535), ⟨[252, 255, 255], 3⟩)
    ∧ read_length_coded_binary (⟨[253, 0, 0, 1], 0⟩ : JState) =
        (Except.ok (some 65536), ⟨[253, 0, 0, 1], 4⟩)
    ∧ read_length_coded_binary (⟨[254, 0, 0, 0, 0, 0, 1, 0, 0], 0⟩ : JState) =
        (Except.ok (some 0), ⟨[254, 0, 0, 0, 0, 0, 1, 0, 0], 9⟩)
    ∧ leNat [0, 0, 0, 0, 0, 1, 0, 0] = 1099511627776
    ∧ (1099511627776 : Nat) ≠ 0 :=
  ⟨rfl, rfl, rfl, rfl, rfl, rfl, by norm_num [leNat], by norm_num⟩

/-- Claim C3: the 20-byte event header is parsed per the fixed layout — one
reserved byte discarded, then little-endian 4-byte timestamp, 1-byte type,
4-byte server id, 4-byte event size, 4-byte log position and 2-byte flags —
and the body length is the event size minus 19 without a checksum footer and
minus 23 with one; in particular event size 42 gives body length 23 and 19
respectively. -/
theorem event_header_layout :
    (∀ (cs : Bool)
       (b0 b1 b2 b3 b4 b5 b6 b7 b8 b9 b10 b11 b12 b13 b14 b15 b16 b17 b18 b19 : Nat)
       (rest : List Nat),
       BinLogPacketWrapper.init cs
         (b0 :: b1 :: b2 :: b3 :: b4 :: b5 :: b6 :: b7 :: b8 :: b9 :: b10 :: b11 :: b12 :: b13 ::
           b14 :: b15 :: b16 :: b17 :: b18 :: b19 :: rest) =
       Except.ok
         ({ timestamp := b1 + b2 * 256 + b3 * 65536 + b4 * 16777216,
            event_type := b5,
            server_id := b6 + b7 * 256 + b8 * 65536 + b9 * 16777216,
            event_size := b10 + b11 * 256 + b12 * 65536 + b13 * 16777216,
            log_pos := b14 + b15 * 256 + b16 * 65536 + b17 * 16777216,
            flags := b18 + b19 * 256 },
          (if cs then ((b10 + b11 * 256 + b12 * 65536 + b13 * 16777216 : Nat) : Int) - 23
           else ((b10 + b11 * 256 + b12 * 65536 + b13 * 16777216 : Nat) : Int) - 19),
          { read_bytes := 0, data_buffer := [], packet := rest }))
    ∧ BinLogPacketWrapper.init false
        [0, 0, 16, 94, 95, 2, 1, 0, 0, 0, 42, 0, 0, 0, 232, 3, 0, 0, 0, 0] =
      Except.ok
        ({ timestamp := 1600000000, event_type := 2, server_id := 1, event_size := 42,
           log_pos := 1000, flags := 0 }, 23,
         { read_bytes := 0, data_buffer := [], packet := [] })
    ∧ BinLogPacketWrapper.init true
        [0, 0, 16, 94, 95, 2, 1, 0, 0, 0, 42, 0, 0, 0, 232, 3, 0, 0, 0, 0] =
      Except.ok
        ({ timestamp := 1600000000, event_type := 2, server_id := 1, event_size := 42,
           log_pos := 1000, flags := 0 }, 19,
         { read_bytes := 0, data_buffer := [], packet := [] }) :=
  ⟨event_header_fields, rfl, rfl⟩

/-- Claim C4 counterexample: `unread` appends to the override buffer instead
of prepending, so with a non-empty buffer `[1]`, pushing back `[2]` and
reading one byte returns `[1]`, not the pushed-back `[2]` the claim
requires. -/
theorem pushback_nonempty_buffer_counterexample :
    BinLogPacketWrapper.read 1
      (BinLogPacketWrapper.unread [2] { read_bytes := 0, data_buffer := [1], packet := [] }) =
      (Except.ok [1], { read_bytes := 0, data_buffer := [2], packet := [] })
    ∧ ([1] : List Nat) ≠ [2] :=
  ⟨rfl, by decide⟩

/-- Claim C4 (amended): `unread` appends the bytes to the override buffer and
decrements the counter; when the buffer is empty at push-back time — the only
situation the code ever creates — the immediately following read returns
exactly the pushed-back bytes and restores the counter, and the
read(5)/pushback-2/read(2) scenario returns those same 2 bytes with the
counter ending at 5. -/
theorem pushback_append_semantics :
    (∀ (st : BState) (b : List Nat), st.data_buffer = [] →
       BinLogPacketWrapper.read b.length (BinLogPacketWrapper.unread b st) = (Except.ok b, st))
    ∧ (∀ st : BState, st.data_buffer = [] → st.read_bytes = 0 → 5 ≤ st.packet.length →
       BinLogPacketWrapper.read 5 st =
         (Except.ok (st.packet.take 5),
          { read_bytes := 5, data_buffer := [], packet := st.packet.drop 5 })
       ∧ BinLogPacketWrapper.read 2
           (BinLogPacketWrapper.unread ((st.packet.take 5).take 2)
             { read_bytes := 5, data_buffer := [], packet := st.packet.drop 5 }) =
         (Except.ok ((st.packet.take 5).take 2),
          { read_bytes := 5, data_buffer := [], packet := st.packet.drop 5 })) :=
  ⟨unread_empty_buffer_read_back, pushback_scenario⟩

/-- Witness for `pushback_append_semantics` at concrete inputs. -/
theorem pushback_append_semantics_witness :
    BinLogPacketWrapper.read 2
      (BinLogPacketWrapper.unread [10, 11]
        { read_bytes := 7, data_buffer := [], packet := [1] }) =
      (Except.ok [10, 11], { read_bytes := 7, data_buffer := [], packet := [1] })
    ∧ (BinLogPacketWrapper.read 5 { read_bytes := 0, data_buffer := [], packet := [1, 2, 3, 4, 5, 6] } =
        (Except.ok [1, 2, 3, 4, 5], { read_bytes := 5, data_buffer := [], packet := [6] })
       ∧ BinLogPacketWrapper.read 2
           (BinLogPacketWrapper.unread [1, 2]
             { read_bytes := 5, data_buffer := [], packet := [6] }) =
         (Except.ok [1, 2], { read_bytes := 5, data_buffer := [], packet := [6] })) := by
  constructor
  · exact pushback_append_semantics.1 _ [10, 11] rfl
  · exact pushback_append_semantics.2
      { read_bytes := 0, data_buffer := [], packet := [1, 2, 3, 4, 5, 6] } rfl rfl (by norm_num)

/-- Claim C5 counterexample: the 20 header bytes are not included in the
total-bytes-read counter — they are pulled with `self.packet.read(20)`,
bypassing the counting `self.read`, and `read_bytes` is 0 (not 20) when the
wrapper finishes parsing the header. -/
theorem header_bytes_not_counted :
    BinLogPacketWrapper.init false
      [0, 0, 16, 94, 95, 2, 1, 0, 0, 0, 42, 0, 0, 0, 232, 3, 0, 0, 0, 0, 77] =
      Except.ok
        ({ timestamp := 1600000000, event_type := 2, server_id := 1, event_size := 42,
           log_pos := 1000, flags := 0 }, 23,
         { read_bytes := 0, data_buffer := [], packet := [77] })
    ∧ (0 : Int) ≠ 20 :=
  ⟨rfl, by decide⟩

/-- Claim C5 (amended): the `read_bytes` counter reflects exactly the body
traffic — every `read(n)` and `advance(n)` adds `n`, every push-back of `k`
bytes subtracts `k`, and over any operation sequence the counter moves by the
net sum — but it starts at 0 after the header is parsed, so the 20 header
bytes are never included. -/
theorem read_bytes_net_accounting :
    (∀ (st : BState) (n : Nat),
       ((BinLogPacketWrapper.read n st).2).read_bytes = st.read_bytes + n)
    ∧ (∀ (st : BState) (n : Nat),
       ((BinLogPacketWrapper.advance n st).2).read_bytes = st.read_bytes + n)
    ∧ (∀ (st : BState) (d : List Nat),
       (BinLogPacketWrapper.unread d st).read_bytes = st.read_bytes - d.length)
    ∧ (∀ (cs : Bool) (pkt : List Nat) (hdr : EventHeader) (bl : Int) (st : BState),
       BinLogPacketWrapper.init cs pkt = Except.ok (hdr, bl, st) → st.read_bytes = 0)
    ∧ (∀ (ops : List BOp) (st : BState),
       (applyBOps ops st).read_bytes = st.read_bytes + (ops.map netDelta).sum) :=
  ⟨read_bumps_counter, advance_bumps_counter, unread_drops_counter, init_counter_zero,
   applyBOps_counter⟩

/-- Witness for `read_bytes_net_accounting` at concrete inputs. -/
theorem read_bytes_net_accounting_witness :
    (applyBOps [BOp.read 3, BOp.unread [9, 9], BOp.advance 4]
       { read_bytes := 0, data_buffer := [], packet := [1, 2, 3, 4, 5, 6, 7] }).read_bytes = 5
    ∧ ({ read_bytes := 0, data_buffer := [], packet := [] } : BState).read_bytes = 0 := by
  constructor
  · have h := read_bytes_net_accounting.2.2.2.2 [BOp.read 3, BOp.unread [9, 9], BOp.advance 4]
      { read_bytes := 0, data_buffer := [], packet := [1, 2, 3, 4, 5, 6, 7] }
    simpa [netDelta] using h
  · exact read_bytes_net_accounting.2.2.2.1 false
      [0, 0, 16, 94, 95, 2, 1, 0, 0, 0, 42, 0, 0, 0, 232, 3, 0, 0, 0, 0]
      { timestamp := 1600000000, event_type := 2, server_id := 1, event_size := 42,
        log_pos := 1000, flags := 0 } 23
      { read_bytes := 0, data_buffer := [], packet := [] } (by rfl)

/-- Claim C6 counterexample: the in-memory payload cursor used by the JSON
decoder returns short reads silently — reading 2 bytes from a 1-byte payload
yields the 1-byte slice with no error of any kind. -/
theorem payload_read_short_silently :
    WrapperPayload.read 2 ⟨[1], 0⟩ = (Except.ok [1], ⟨[1], 2⟩)
    ∧ ([1] : List Nat).length ≠ 2 :=
  ⟨rfl, by decide⟩

/-- Claim C6 (amended): `BinLogPacketWrapper.read` never returns a short read
silently — a successful read of `n` bytes yields exactly `n` bytes, shortfall
being the wrapped packet's error — but `WrapperPayload.read` (the JSON
decoder's cursor) returns the clamped slice `payload[point:point+n]` with no
`TruncatedDataError`, delivering `min n (length - point)` bytes. -/
theorem read_exactness_amended :
    (∀ (st : BState) (n : Nat) (d : List Nat) (st1 : BState),
       BinLogPacketWrapper.read n st = (Except.ok d, st1) → d.length = n)
    ∧ (∀ (pl : List Nat) (pt n : Nat),
       WrapperPayload.read n ⟨pl, pt⟩ = (Except.ok ((pl.drop pt).take n), ⟨pl, pt + n⟩))
    ∧ (∀ (pl : List Nat) (pt n : Nat),
       ((pl.drop pt).take n).length = min n (pl.length - pt)) :=
  ⟨binlog_read_exact, fun pl pt n => rfl,
   fun pl pt n => by simp [List.length_take, List.length_drop]⟩

/-- Witness for `read_exactness_amended` at a concrete input. -/
theorem read_exactness_amended_witness :
    ([7, 8] : List Nat).length = 2 :=
  read_exactness_amended.1 { read_bytes := 0, data_buffer := [], packet := [7, 8] } 2 [7, 8]
    { read_bytes := 2, data_buffer := [], packet := [] } (by rfl)

/-- Claim C7: for both JSONB containers, if the declared byte-size field
exceeds the `declaredLength` bound, the decode fails with the malformed-JSON
error immediately after the two header fields — the final cursor state is the
one right after reading count and size, so no nested element, key or value
read is attempted. -/
theorem json_declared_size_bound_first :
    ∀ (fuel elements size : Nat) (length : Int) (large : Bool) (st st2 : JState),
      readCountSize large st = (Except.ok (elements, size), st2) →
      (size : Int) > length →
      read_binary_json_object (fuel + 1) length large st = (Except.error Err.malformedJson, st2)
      ∧ read_binary_json_array (fuel + 1) length large st = (Except.error Err.malformedJson, st2) := by
  intro fuel elements size length large st st2 h1 hgt
  constructor
  · rw [read_binary_json_object]
    rw [Mbind_apply _ _ st, h1]
    simp [hgt, throwM]
  · rw [read_binary_json_array]
    rw [Mbind_apply _ _ st, h1]
    simp [hgt, throwM]

/-- Witness for `json_declared_size_bound_first` at a concrete input
(declared size 50 against bound 10). -/
theorem json_declared_size_bound_first_witness :
    read_binary_json_object 1 10 false ⟨[1, 0, 50, 0], 0⟩ =
      (Except.error Err.malformedJson, ⟨[1, 0, 50, 0], 4⟩)
    ∧ read_binary_json_array 1 10 false ⟨[1, 0, 50, 0], 0⟩ =
      (Except.error Err.malformedJson, ⟨[1, 0, 50, 0], 4⟩) :=
  json_declared_size_bound_first 0 1 50 10 false ⟨[1, 0, 50, 0], 0⟩ ⟨[1, 0, 50, 0], 4⟩
    (by rfl) (by norm_num)

/-- Claim C8: error isolation is asymmetric between the two JSONB
containers — in object decode, the resolution of a stored (non-inline) field
value never propagates an error (any failure is swallowed and the field
becomes null, the loop continuing), while in array decode the stored-slot
resolution is exactly the nested decode, errors included; concretely, a
two-element object whose first value has an unhandled type tag decodes to
`first-key: null, second-key: 7`, while the analogous array aborts with the
`ValueError`. -/
theorem json_error_isolation_asymmetry :
    (∀ (fuel : Nat) (length : Int) (slot : Slot) (st : JState),
       ∃ v s1, objFieldData (fuel + 1) length slot st = (Except.ok v, s1))
    ∧ (∀ (fuel t off : Nat) (length : Int),
       arrFieldData (fuel + 1) length (Slot.stored t off) = read_binary_json_type fuel t length)
    ∧ (read_binary_json_object 5 100 false
         ⟨[2, 0, 30, 0, 17, 0, 1, 0, 18, 0, 1, 0, 20, 0, 0, 5, 7, 0, 97, 98], 0⟩ =
       (Except.ok [([97], JsonValue.null), ([98], JsonValue.int 7)],
        ⟨[2, 0, 30, 0, 17, 0, 1, 0, 18, 0, 1, 0, 20, 0, 0, 5, 7, 0, 97, 98], 20⟩))
    ∧ (read_binary_json_array 5 100 false ⟨[2, 0, 10, 0, 20, 0, 0, 5, 7, 0], 0⟩ =
       (Except.error Err.valueError, ⟨[2, 0, 10, 0, 20, 0, 0, 5, 7, 0], 10⟩)) := by
  refine ⟨?_, ?_, by rfl, by rfl⟩
  · intro fuel length slot st
    cases slot with
    | inline t v => exact ⟨v, st, rfl⟩
    | stored t off =>
      rcases h : read_binary_json_type fuel t length st with ⟨r, s1⟩
      cases r with
      | ok v => exact ⟨v, s1, by simp [objFieldData, h]⟩
      | error e => exact ⟨JsonValue.null, s1, by simp [objFieldData, h]⟩
  · intro fuel t off length
    rfl

/-- Claim C9 counterexample: width 5 does not return a signed two's-complement
value — on the five bytes `0xFF…FF` the reader yields the unsigned value
2^40 − 1 = 1099511627775, whereas the claimed signed interpretation of those
bytes is −1. -/
theorem int_be_width5_unsigned_counterexample :
    read_int_be_by_size 5 (⟨[255, 255, 255, 255, 255], 0⟩ : JState) =
      (Except.ok (some 1099511627775), ⟨[255, 255, 255, 255, 255], 5⟩)
    ∧ toSigned 40 1099511627775 = -1
    ∧ (1099511627775 : Int) ≠ -1 :=
  ⟨rfl, by norm_num [toSigned], by decide⟩

/-- Claim C9 (amended): `read_int_be_by_size` reads big-endian values at
widths 1, 2, 3 and 4 as signed two's-complement (width 3 reconstructed
byte-by-byte with shift and mask); width 5 consumes five bytes but returns the
unsigned 40-bit value; width 8 consumes eight bytes and then fails, because
the four-byte struct format is applied to the eight-byte buffer; widths 6 and
7 (and any other) consume nothing and return no value. -/
theorem int_be_by_size_widths :
    (∀ (pl rest : List Nat) (pt b : Nat), pl.drop pt = b :: rest →
       read_int_be_by_size 1 (⟨pl, pt⟩ : JState) =
         (Except.ok (some (if b < 128 then (b : Int) else (b : Int) - 256)), ⟨pl, pt + 1⟩))
    ∧ (∀ (pl rest : List Nat) (pt b0 b1 : Nat), pl.drop pt = b0 :: b1 :: rest →
       read_int_be_by_size 2 (⟨pl, pt⟩ : JState) =
         (Except.ok (some (if b0 * 256 + b1 < 32768 then ((b0 * 256 + b1 : Nat) : Int)
            else ((b0 * 256 + b1 : Nat) : Int) - 65536)), ⟨pl, pt + 2⟩))
    ∧ (∀ (pl rest : List Nat) (pt a b c : Nat), pl.drop pt = a :: b :: c :: rest →
       b < 256 → c < 256 →
       read_int_be_by_size 3 (⟨pl, pt⟩ : JState) =
         (Except.ok (some (if a * 65536 + b * 256 + c < 8388608
            then ((a * 65536 + b * 256 + c : Nat) : Int)
            else ((a * 65536 + b * 256 + c : Nat) : Int) - 16777216)), ⟨pl, pt + 3⟩))
    ∧ (∀ (pl rest : List Nat) (pt b0 b1 b2 b3 : Nat),
       pl.drop pt = b0 :: b1 :: b2 :: b3 :: rest →
       read_int_be_by_size 4 (⟨pl, pt⟩ : JState) =
         (Except.ok (some (if b0 * 16777216 + b1 * 65536 + b2 * 256 + b3 < 2147483648
            then ((b0 * 16777216 + b1 * 65536 + b2 * 256 + b3 : Nat) : Int)
            else ((b0 * 16777216 + b1 * 65536 + b2 * 256 + b3 : Nat) : Int) - 4294967296)),
          ⟨pl, pt + 4⟩))
    ∧ (∀ (pl rest : List Nat) (pt b0 b1 b2 b3 b4 : Nat),
       pl.drop pt = b0 :: b1 :: b2 :: b3 :: b4 :: rest →
       read_int_be_by_size 5 (⟨pl, pt⟩ : JState) =
         (Except.ok
            (some ((b0 * 4294967296 + b1 * 16777216 + b2 * 65536 + b3 * 256 + b4 : Nat) : Int)),
          ⟨pl, pt + 5⟩))
    ∧ (∀ (pl : List Nat) (pt : Nat), 8 ≤ pl.length - pt →
       read_int_be_by_size 8 (⟨pl, pt⟩ : JState) =
         (Except.error Err.structError, ⟨pl, pt + 8⟩))
    ∧ (∀ st : JState, read_int_be_by_size 6 st = (Except.ok none, st))
    ∧ (∀ st : JState, read_int_be_by_size 7 st = (Except.ok none, st)) :=
  ⟨int_be_size1, int_be_size2, int_be_size3, int_be_size4, int_be_size5, int_be_size8,
   fun _ => rfl, fun _ => rfl⟩

/-- Witness for `int_be_by_size_widths` at concrete inputs. -/
theorem int_be_by_size_widths_witness :
    read_int_be_by_size 2 (⟨[4, 210], 0⟩ : JState) = (Except.ok (some 1234), ⟨[4, 210], 2⟩)
    ∧ read_int_be_by_size 3 (⟨[255, 0, 1], 0⟩ : JState) =
        (Except.ok (some (-65535)), ⟨[255, 0, 1], 3⟩)
    ∧ read_int_be_by_size 8 (⟨[1, 2, 3, 4, 5, 6, 7, 8], 0⟩ : JState) =
        (Except.error Err.structError, ⟨[1, 2, 3, 4, 5, 6, 7, 8], 8⟩) := by
  refine ⟨?_, ?_, ?_⟩
  · have h := int_be_by_size_widths.2.1 [4, 210] [] 0 4 210 rfl
    simpa using h
  · have h := int_be_by_size_widths.2.2.1 [255, 0, 1] [] 0 255 0 1 rfl (by norm_num) (by norm_num)
    simpa using h
  · exact int_be_by_size_widths.2.2.2.2.2.1 [1, 2, 3, 4, 5, 6, 7, 8] 0 (by norm_num)

/-- Claim C10: a JSONB object whose header declares zero elements fails with
an `IndexError` (the first-key fast-forward indexes the empty key-offset
table) at the cursor position right after the two header fields, while an
array declaring zero elements decodes to the empty sequence. -/
theorem empty_container_object_array_asymmetry :
    ∀ (fuel size : Nat) (length : Int) (large : Bool) (st st2 : JState),
      readCountSize large st = (Except.ok (0, size), st2) →
      ¬((size : Int) > length) →
      read_binary_json_object (fuel + 1) length large st = (Except.error Err.indexError, st2)
      ∧ read_binary_json_array (fuel + 1) length large st = (Except.ok [], st2) := by
  intro fuel size length large st st2 h1 hle
  constructor
  · rw [read_binary_json_object]
    rw [Mbind_apply _ _ st, h1]
    simp only [hle, if_false, List.range_zero, List.mapM_nil]
    simp [Mbind_apply, Mpure_apply, throwM]
  · rw [read_binary_json_array]
    rw [Mbind_apply _ _ st, h1]
    simp only [hle, if_false, List.range_zero, List.mapM_nil]
    simp [Mbind_apply, Mpure_apply, List.mapM.loop]

/-- Witness for `empty_container_object_array_asymmetry` at a concrete
input (zero elements, declared size 3, bound 100). -/
theorem empty_container_object_array_asymmetry_witness :
    read_binary_json_object 1 100 false ⟨[0, 0, 3, 0], 0⟩ =
      (Except.error Err.indexError, ⟨[0, 0, 3, 0], 4⟩)
    ∧ read_binary_json_array 1 100 false ⟨[0, 0, 3, 0], 0⟩ =
      (Except.ok [], ⟨[0, 0, 3, 0], 4⟩) :=
  empty_container_object_array_asymmetry 0 3 100 false ⟨[0, 0, 3, 0], 0⟩ ⟨[0, 0, 3, 0], 4⟩
    (by rfl) (by norm_num)
